import Mathlib

/-!
Shallow embedding of the IRRF calculator of `app.js` (repository
calculadora-irrf).  The repository contains two textually identical copies of
the constants, the bracket table, `round2`, `isFiniteNumber` and
`escolherFaixa`, and two handler variants for `POST /calcular-irrf` that share
the whole pipeline up to `valor_irrf` and differ in how the PL 1087/25
reduction is computed and in the response shape.  JavaScript numbers are
modelled as exact rationals; `Math.round` rounds half toward positive
infinity, i.e. `Math.round x = ⌊x + 1/2⌋`, and `Number.EPSILON = 2⁻⁵².
-/

namespace IRRF

/-- JS constant `Number.EPSILON`, exactly `2⁻⁵²`. -/
def EPS : ℚ := 1 / 2 ^ 52

/-- `round2` from app.js: `Math.round((value + Number.EPSILON) * 100) / 100`,
with `Math.round x = ⌊x + 1/2⌋` (ties round toward positive infinity). -/
def round2 (v : ℚ) : ℚ := (⌊(v + EPS) * 100 + 1 / 2⌋ : ℚ) / 100

/-- Constant `DEDUCAO_POR_DEPENDENTE = 189.59` from app.js. -/
def DEDUCAO_POR_DEPENDENTE : ℚ := 189.59

/-- Constant `DESCONTO_SIMPLIFICADO_MINIMO = 607.20` from app.js. -/
def DESCONTO_SIMPLIFICADO_MINIMO : ℚ := 607.20

/-- One row of the bracket table: upper limit (inclusive; `none` models the
JavaScript `Infinity` of the last row), rate in percent, fixed deduction. -/
structure Faixa where
  limite : Option ℚ
  aliquota : ℚ
  deducao : ℚ
deriving DecidableEq

/-- The table `TABELA_IRRF_052025` of app.js, in source order. -/
def TABELA_IRRF_052025 : List Faixa :=
  [⟨some 2428.80, 0.0, 0.0⟩,
   ⟨some 2826.65, 7.5, 182.16⟩,
   ⟨some 3751.05, 15.0, 394.16⟩,
   ⟨some 4664.68, 22.5, 675.49⟩,
   ⟨none, 27.5, 908.73⟩]

/-- `base <= faixa.limite` of app.js; a comparison with `Infinity` (`none`)
is always true for a finite base. -/
def leLimite (base : ℚ) (f : Faixa) : Bool :=
  match f.limite with
  | none => true
  | some l => decide (base ≤ l)

/-- `escolherFaixa` from app.js: first row whose limit the base does not
exceed, falling back to the last row of the table. -/
def escolherFaixa (base : ℚ) : Faixa :=
  match TABELA_IRRF_052025.find? (fun f => leLimite base f) with
  | some f => f
  | none => TABELA_IRRF_052025.getLastD ⟨none, 0, 0⟩

/-- `deducao_dependentes` (app.js line 70). -/
def deducao_dependentes (qd : ℚ) : ℚ := round2 (qd * DEDUCAO_POR_DEPENDENTE)

/-- `soma_deducoes` (app.js line 71): the alimony is rounded once on its own
and the sum is rounded again. -/
def soma_deducoes (po qd pa : ℚ) : ℚ :=
  round2 (po + deducao_dependentes qd + round2 pa)

/-- `deducao_total_aplicada` (app.js line 73). -/
def deducao_total_aplicada (po qd pa : ℚ) : ℚ :=
  round2 (max (soma_deducoes po qd pa) DESCONTO_SIMPLIFICADO_MINIMO)

/-- `simplificado_minimo_usado` (app.js line 74). -/
def simplificado_minimo_usado (po qd pa : ℚ) : Bool :=
  decide (DESCONTO_SIMPLIFICADO_MINIMO > soma_deducoes po qd pa)

/-- `base_liquida_irrf` (app.js line 77). -/
def base_liquida_irrf (rt po qd pa : ℚ) : ℚ :=
  round2 (rt - deducao_total_aplicada po qd pa)

/-- `valor_irrf` (app.js lines 85-88): raw tax from the selected bracket,
clamped at zero, rounded to two decimals.  The `Number.isFinite` guard of the
source is vacuous over exact rationals. -/
def valor_irrf (rt po qd pa : ℚ) : ℚ :=
  let base := base_liquida_irrf rt po qd pa
  let faixa := escolherFaixa base
  let bruto := base * (faixa.aliquota / 100) - faixa.deducao
  round2 (if bruto < 0 then 0 else bruto)

/-- Variant 1 reduction `reducao_pl_1087_25` (app.js lines 91-98), as a
function of the taxable income and the already-computed `valor_irrf`. -/
def reducao_pl_1087_25 (rt v : ℚ) : ℚ :=
  let c : ℚ :=
    if rt ≤ 5000 then 312.89
    else if 5000 < rt ∧ rt ≤ 7350 then 978.62 - 0.133145 * rt
    else 0
  max 0 (min (round2 c) v)

/-- Variant 1 `valor_irrf_apos_pl_1087_25` (app.js line 99). -/
def valor_irrf_apos_v1 (rt po qd pa : ℚ) : ℚ :=
  round2 (valor_irrf rt po qd pa -
    reducao_pl_1087_25 rt (valor_irrf rt po qd pa))

/-- Variant 2 `reducao_pl_formula` (app.js lines 318-329): branch formula,
explicit zero-forcing when the tax is zero, then a rounded clamp. -/
def reducao_pl_formula (rt v : ℚ) : ℚ :=
  let f0 : ℚ :=
    if rt ≤ 5000 then round2 (min v 312.89)
    else if rt ≤ 7350 then round2 (978.62 - 0.133145 * rt)
    else 0
  let f1 : ℚ := if v = 0 then 0 else f0
  round2 (max 0 (min f1 v))

/-- Variant 2 `reducao_pl_aplicada` (app.js line 331). -/
def reducao_pl_aplicada (rt v : ℚ) : ℚ :=
  max 0 (min (reducao_pl_formula rt v) v)

/-- Variant 2 `valor_irrf_apos_pl_1087_25` (app.js line 332). -/
def valor_irrf_apos_v2 (rt po qd pa : ℚ) : ℚ :=
  round2 (valor_irrf rt po qd pa -
    reducao_pl_aplicada rt (valor_irrf rt po qd pa))

/-- Success message of the PL 1087/25 branch (app.js line 116 and line 470). -/
def MSG_PL : String :=
  "A dedução prevista na PL 1085/25 não se aplica porque o rendimento tributável ultrapassa R$ 7.350,00."

/-- Validation error for non-numeric fields (app.js line 59). -/
def MSG_CAMPOS_INVALIDOS : String :=
  "Campos inválidos: envie números em rendimento_tributavel, previdencia_oficial, quantidade_dependentes e pensao_alimenticia."

/-- Validation error for negative monetary fields (app.js line 63). -/
def MSG_NEGATIVOS : String :=
  "rendimento_tributavel, previdencia_oficial e pensao_alimenticia não podem ser negativos."

/-- Validation error for a bad dependent count (app.js line 66). -/
def MSG_DEPENDENTES : String :=
  "quantidade_dependentes deve ser inteiro não negativo."

/-- The JSON body of the success response of handler variant 1 (app.js lines
101-119).  Conditionally spread fields are modelled as `Option`s: `none`
means the key is absent from the response object. -/
structure Resposta1 where
  rendimento_tributavel : ℚ
  previdencia_oficial : Option ℚ
  quantidade_dependentes : Option ℚ
  pensao_alimenticia : Option ℚ
  valor_deducoes_dependentes : Option ℚ
  desconto_simplificado_aplicado : Option ℚ
  base_liquida_irrf : ℚ
  aliquota_irrf : ℚ
  deducao_conforme_tabela : ℚ
  valor_irrf : ℚ
  mensagem : Option String
  reducao_pl_1087_25 : Option ℚ
  valor_irrf_apos_pl_1087_25 : Option ℚ
deriving DecidableEq

/-- Builds variant 1's response from validated inputs (app.js lines 70-119). -/
def montarResposta1 (rt po qd pa : ℚ) : Resposta1 :=
  let usado := simplificado_minimo_usado po qd pa
  let v := valor_irrf rt po qd pa
  { rendimento_tributavel := rt
    previdencia_oficial := if usado then none else some po
    quantidade_dependentes := if usado then none else some qd
    pensao_alimenticia := if usado then none else some (round2 pa)
    valor_deducoes_dependentes :=
      if usado then none else some (round2 (deducao_dependentes qd))
    desconto_simplificado_aplicado :=
      if usado then some DESCONTO_SIMPLIFICADO_MINIMO else none
    base_liquida_irrf := round2 (base_liquida_irrf rt po qd pa)
    aliquota_irrf := (escolherFaixa (base_liquida_irrf rt po qd pa)).aliquota
    deducao_conforme_tabela :=
      round2 (escolherFaixa (base_liquida_irrf rt po qd pa)).deducao
    valor_irrf := v
    mensagem := if rt > 7350 then some MSG_PL else none
    reducao_pl_1087_25 := if rt > 7350 then none else some (reducao_pl_1087_25 rt v)
    valor_irrf_apos_pl_1087_25 :=
      if rt > 7350 then none else some (valor_irrf_apos_v1 rt po qd pa) }

/-- A value appearing in the `valores` object of a trace step: the source
stores numbers and, in step 3, a boolean flag. -/
inductive ValorEtapa where
  | num (q : ℚ)
  | flag (b : Bool)
deriving DecidableEq

/-- The `resultado` of a trace step: a number, or (step 5 only) the structured
pair of rate and table deduction. -/
inductive ResultadoEtapa where
  | num (q : ℚ)
  | faixaSel (aliquota deducao : ℚ)
deriving DecidableEq

/-- One entry of `memoria_calculo.etapas` (app.js lines 342-451). -/
structure Etapa where
  ordem : ℕ
  titulo : String
  descricao : String
  formula : String
  valores : List (String × ValorEtapa)
  resultado : ResultadoEtapa
deriving DecidableEq

/-- `memoria_calculo` of handler variant 2 (app.js lines 335-452). -/
structure Memoria where
  entradas : List (String × ℚ)
  etapas : List Etapa
deriving DecidableEq

end IRRF

namespace IRRF

/-- Builds `memoria_calculo` from the validated inputs, mirroring app.js
lines 335-452 step by step. -/
def memoria_calculo (rt po qd pa : ℚ) : Memoria :=
  let dd := deducao_dependentes qd
  let sd := soma_deducoes po qd pa
  let usado := simplificado_minimo_usado po qd pa
  let dta := deducao_total_aplicada po qd pa
  let base := base_liquida_irrf rt po qd pa
  let fx := escolherFaixa base
  let v := valor_irrf rt po qd pa
  let formula7 := reducao_pl_formula rt v
  let aplicada := reducao_pl_aplicada rt v
  let apos := valor_irrf_apos_v2 rt po qd pa
  { entradas :=
      [("rendimento_tributavel", round2 rt),
       ("previdencia_oficial", round2 po),
       ("quantidade_dependentes", qd),
       ("pensao_alimenticia", round2 pa)]
    etapas :=
      [{ ordem := 1
         titulo := "Cálculo da dedução por dependentes"
         descricao := "Quantidade de dependentes multiplicada pelo valor de dedução por dependente."
         formula := "quantidade_dependentes * 189,59"
         valores := [("quantidade_dependentes", .num qd),
                     ("valor_por_dependente", .num DEDUCAO_POR_DEPENDENTE)]
         resultado := .num dd },
       { ordem := 2
         titulo := "Cálculo das deduções legais"
         descricao := "Soma da Previdência Oficial, pensão alimentícia e a dedução por dependentes."
         formula := "previdencia_oficial + pensao_alimenticia + deducao_dependentes"
         valores := [("previdencia_oficial", .num (round2 po)),
                     ("pensao_alimenticia", .num (round2 pa)),
                     ("deducao_dependentes", .num dd)]
         resultado := .num sd },
       { ordem := 3
         titulo := "Escolha da dedução aplicada"
         descricao := "Maior valor entre soma das deduções legais e o desconto simplificado mínimo."
         formula := "max(soma_deducoes, 607,20)"
         valores := [("soma_deducoes", .num sd),
                     ("desconto_simplificado_minimo", .num DESCONTO_SIMPLIFICADO_MINIMO),
                     ("utilizou_simplificado_minimo", .flag usado)]
         resultado := .num dta },
       { ordem := 4
         titulo := "Base líquida do IRRF"
         descricao := "Rendimento tributável menos a dedução aplicada."
         formula := "rendimento_tributavel - deducao_total_aplicada"
         valores := [("rendimento_tributavel", .num (round2 rt)),
                     ("deducao_total_aplicada", .num dta)]
         resultado := .num base },
       { ordem := 5
         titulo := "Faixa da tabela progressiva"
         descricao := "Determinação da alíquota e parcela a deduzir conforme a base líquida."
         formula := "tabela progressiva mensal 05/2025"
         valores := [("base_liquida_irrf", .num base),
                     ("aliquota", .num fx.aliquota),
                     ("deducao_conforme_tabela", .num (round2 fx.deducao))]
         resultado := .faixaSel fx.aliquota (round2 fx.deducao) },
       { ordem := 6
         titulo := "Imposto pela tabela progressiva"
         descricao := "Cálculo do IR pela base líquida."
         formula := "base_liquida_irrf * (aliquota/100) - deducao_conforme_tabela"
         valores := [("base_liquida_irrf", .num base),
                     ("aliquota", .num fx.aliquota),
                     ("deducao_conforme_tabela", .num (round2 fx.deducao))]
         resultado := .num v },
       { ordem := 7
         titulo := "Redução PL 1087/25 (regra aplicada)"
         descricao := "Cálculo da redução conforme a faixa de rendimento e limitações legais, limitada ao imposto devido."
         formula :=
           if rt ≤ 5000 then "min(valor_irrf, 312,89)"
           else if rt ≤ 7350 then "max(0, min(978,62 - 0,133145 * rendimento_tributavel, valor_irrf))"
           else "0"
         valores := [("rendimento_tributavel", .num (round2 rt)),
                     ("valor_irrf", .num v),
                     ("limite_superior", .num 7350)]
         resultado := .num formula7 },
       { ordem := 8
         titulo := "Redução aplicada ao imposto"
         descricao := "Limitação da redução ao imposto devido (não negativa)."
         formula := "min(max(reducao_pl, 0), valor_irrf)"
         valores := [("reducao_pl_calculada", .num formula7),
                     ("valor_irrf", .num v)]
         resultado := .num aplicada },
       { ordem := 9
         titulo := "IRRF após PL 1087/25"
         descricao := "Imposto final após aplicar a redução da PL, quando aplicável."
         formula := "valor_irrf - reducao_pl_aplicada"
         valores := [("valor_irrf", .num v),
                     ("reducao_pl_aplicada", .num aplicada)]
         resultado := .num apos }] }

/-- The JSON body of the success response of handler variant 2 (app.js lines
454-474): `reducao_pl_1087_25` is always present, while
`valor_irrf_apos_pl_1087_25` and `mensagem` are conditional. -/
structure Resposta2 where
  rendimento_tributavel : ℚ
  previdencia_oficial : Option ℚ
  quantidade_dependentes : Option ℚ
  pensao_alimenticia : Option ℚ
  valor_deducoes_dependentes : Option ℚ
  desconto_simplificado_aplicado : Option ℚ
  base_liquida_irrf : ℚ
  aliquota_irrf : ℚ
  deducao_conforme_tabela : ℚ
  valor_irrf : ℚ
  reducao_pl_1087_25 : ℚ
  mensagem : Option String
  valor_irrf_apos_pl_1087_25 : Option ℚ
  memoria_calculo : Memoria
deriving DecidableEq

/-- Builds variant 2's response from validated inputs (app.js lines 296-474). -/
def montarResposta2 (rt po qd pa : ℚ) : Resposta2 :=
  let usado := simplificado_minimo_usado po qd pa
  let v := valor_irrf rt po qd pa
  { rendimento_tributavel := rt
    previdencia_oficial := if usado then none else some po
    quantidade_dependentes := if usado then none else some qd
    pensao_alimenticia := if usado then none else some (round2 pa)
    valor_deducoes_dependentes :=
      if usado then none else some (round2 (deducao_dependentes qd))
    desconto_simplificado_aplicado :=
      if usado then some DESCONTO_SIMPLIFICADO_MINIMO else none
    base_liquida_irrf := round2 (base_liquida_irrf rt po qd pa)
    aliquota_irrf := (escolherFaixa (base_liquida_irrf rt po qd pa)).aliquota
    deducao_conforme_tabela :=
      round2 (escolherFaixa (base_liquida_irrf rt po qd pa)).deducao
    valor_irrf := v
    reducao_pl_1087_25 := reducao_pl_formula rt v
    mensagem := if rt > 7350 then some MSG_PL else none
    valor_irrf_apos_pl_1087_25 :=
      if rt > 7350 then none else some (valor_irrf_apos_v2 rt po qd pa)
    memoria_calculo := memoria_calculo rt po qd pa }

/-- A JavaScript value arriving in one of the four request-body fields: a
finite number, or anything that fails `isFiniteNumber` (NaN, an infinity, or
a non-number). -/
inductive JsVal where
  | num (q : ℚ)
  | notFinite
deriving DecidableEq

/-- `isFiniteNumber` from app.js:
`typeof value === 'number' && Number.isFinite(value)`. -/
def isFiniteNumber : JsVal → Bool
  | .num _ => true
  | .notFinite => false

/-- The four request-body fields consumed by `POST /calcular-irrf`
(after the alimony key fallback and its `?? 0` default). -/
structure Entrada where
  rendimento_tributavel : JsVal
  previdencia_oficial : JsVal
  quantidade_dependentes : JsVal
  pensao_alimenticia : JsVal
deriving DecidableEq

/-- JS `Number.isInteger` on a finite number modelled as a rational. -/
def jsIsInteger (q : ℚ) : Bool := decide (q.den = 1)

/-- Handler variant 1 for `POST /calcular-irrf` (app.js lines 43-122):
validation in source order, then the computed response.  An `Except.error`
is the 400 response carrying the `erro` message. -/
def calcularIrrf (e : Entrada) : Except String Resposta1 :=
  match e.rendimento_tributavel, e.previdencia_oficial,
        e.quantidade_dependentes, e.pensao_alimenticia with
  | .num rt, .num po, .num qd, .num pa =>
    if rt < 0 ∨ po < 0 ∨ pa < 0 then .error MSG_NEGATIVOS
    else if ¬ jsIsInteger qd ∨ qd < 0 then .error MSG_DEPENDENTES
    else .ok (montarResposta1 rt po qd pa)
  | _, _, _, _ => .error MSG_CAMPOS_INVALIDOS

/-- First-match characterization of `escolherFaixa`: the scan of the ordered
table returns the first row whose inclusive limit is at least the base, and
the unbounded last row otherwise. -/
theorem escolherFaixa_eq (base : ℚ) :
    escolherFaixa base =
      if base ≤ 2428.80 then ⟨some 2428.80, 0.0, 0.0⟩
      else if base ≤ 2826.65 then ⟨some 2826.65, 7.5, 182.16⟩
      else if base ≤ 3751.05 then ⟨some 3751.05, 15.0, 394.16⟩
      else if base ≤ 4664.68 then ⟨some 4664.68, 22.5, 675.49⟩
      else ⟨none, 27.5, 908.73⟩ := by
  by_cases h1 : base ≤ 2428.80 <;> by_cases h2 : base ≤ 2826.65 <;>
    by_cases h3 : base ≤ 3751.05 <;> by_cases h4 : base ≤ 4664.68 <;>
    simp [escolherFaixa, TABELA_IRRF_052025, List.find?, leLimite, h1, h2, h3, h4]

/-- `round2` of a nonnegative value is nonnegative. -/
theorem round2_nonneg {x : ℚ} (hx : 0 ≤ x) : 0 ≤ round2 x := by
  unfold round2 EPS
  have h0 : (0 : ℚ) ≤ (x + 1 / 2 ^ 52) * 100 + 1 / 2 := by nlinarith
  have h1 : (0 : ℤ) ≤ ⌊(x + 1 / 2 ^ 52) * 100 + 1 / 2⌋ := Int.floor_nonneg.mpr h0
  have h2 : (0 : ℚ) ≤ (⌊(x + 1 / 2 ^ 52) * 100 + 1 / 2⌋ : ℚ) := by exact_mod_cast h1
  positivity

/-- `round2` always lands on a whole number of cents. -/
theorem round2_twoDec (v : ℚ) : ∃ k : ℤ, round2 v = (k : ℚ) / 100 := ⟨_, rfl⟩

/-- `round2` fixes values that already are a whole number of cents (the
`Number.EPSILON` nudge of `100 / 2 ^ 52` is too small to move them). -/
theorem round2_idem {x : ℚ} (h : ∃ k : ℤ, x = (k : ℚ) / 100) : round2 x = x := by
  obtain ⟨k, rfl⟩ := h
  unfold round2 EPS
  have h1 : ((k : ℚ) / 100 + 1 / 2 ^ 52) * 100 + 1 / 2 =
      (100 / 2 ^ 52 + 1 / 2 : ℚ) + (k : ℚ) := by ring
  have h2 : ⌊(100 / 2 ^ 52 + 1 / 2 : ℚ)⌋ = 0 := by
    rw [Int.floor_eq_zero_iff]
    constructor
    · positivity
    · norm_num
  rw [h1, Int.floor_add_int, h2]
  norm_num

/-- The minimum of two whole-cent values is a whole-cent value. -/
theorem twoDec_min {x y : ℚ} (hx : ∃ k : ℤ, x = (k : ℚ) / 100)
    (hy : ∃ k : ℤ, y = (k : ℚ) / 100) : ∃ k : ℤ, min x y = (k : ℚ) / 100 := by
  obtain ⟨a, rfl⟩ := hx
  obtain ⟨b, rfl⟩ := hy
  refine ⟨min a b, ?_⟩
  rw [min_div_div_right (by norm_num : (0 : ℚ) ≤ 100), ← Int.cast_min]

/-- The tax before the reduction is never negative: the source clamps the raw
bracket tax at zero before rounding. -/
theorem valor_irrf_nonneg (rt po qd pa : ℚ) : 0 ≤ valor_irrf rt po qd pa := by
  simp only [valor_irrf]
  apply round2_nonneg
  split_ifs with h
  · exact le_refl 0
  · exact not_lt.mp h

/-- Bounds for the variant 1 reduction: clamped into `[0, v]` whenever the
already-clamped tax `v` is nonnegative. -/
theorem reducao_v1_bounds (rt v : ℚ) (hv : 0 ≤ v) :
    0 ≤ reducao_pl_1087_25 rt v ∧ reducao_pl_1087_25 rt v ≤ v := by
  simp only [reducao_pl_1087_25]
  exact ⟨le_max_left 0 _, max_le hv (min_le_right _ v)⟩

/-- Bounds for the variant 2 reduction. -/
theorem reducao_v2_bounds (rt v : ℚ) (hv : 0 ≤ v) :
    0 ≤ reducao_pl_aplicada rt v ∧ reducao_pl_aplicada rt v ≤ v := by
  simp only [reducao_pl_aplicada]
  exact ⟨le_max_left 0 _, max_le hv (min_le_right _ v)⟩

/-- The two variants compute the same reduction from the same taxable income
and the same (nonnegative, whole-cent) tax before reduction. -/
theorem reducao_equiv (rt v : ℚ) (hv : 0 ≤ v) (h2 : ∃ k : ℤ, v = (k : ℚ) / 100) :
    reducao_pl_1087_25 rt v = reducao_pl_aplicada rt v := by
  have h312 : (312.89 : ℚ) = ((31289 : ℤ) : ℚ) / 100 := by norm_num
  have r312 : round2 (312.89 : ℚ) = 312.89 := round2_idem ⟨31289, h312⟩
  have r0 : round2 (0 : ℚ) = 0 := round2_idem ⟨0, by norm_num⟩
  by_cases hv0 : v = 0
  · subst hv0
    obtain ⟨a1, b1⟩ := reducao_v1_bounds rt 0 le_rfl
    obtain ⟨a2, b2⟩ := reducao_v2_bounds rt 0 le_rfl
    rw [le_antisymm b1 a1, le_antisymm b2 a2]
  · simp only [reducao_pl_1087_25, reducao_pl_aplicada, reducao_pl_formula,
      if_neg hv0]
    by_cases hA : rt ≤ 5000
    · have hf0 : round2 (min v (312.89 : ℚ)) = min v 312.89 :=
        round2_idem (twoDec_min h2 ⟨31289, h312⟩)
      simp only [if_pos hA, r312, hf0]
      rw [min_eq_left (min_le_left v (312.89 : ℚ))]
      rw [max_eq_right (le_min hv (by norm_num : (0:ℚ) ≤ 312.89))]
      rw [hf0]
      rw [min_eq_left (min_le_left v (312.89 : ℚ))]
      rw [max_eq_right (le_min hv (by norm_num : (0:ℚ) ≤ 312.89))]
      rw [min_comm (312.89 : ℚ) v]
      exact max_eq_right (le_min hv (by norm_num : (0:ℚ) ≤ 312.89))
    · by_cases hB : rt ≤ 7350
      · have hcond : 5000 < rt ∧ rt ≤ 7350 := ⟨not_le.mp hA, hB⟩
        simp only [if_neg hA, if_pos hcond, if_pos hB]
        have hc : (0 : ℚ) ≤ 978.62 - 0.133145 * rt := by
          have h7 : (0.133145 : ℚ) * rt ≤ 0.133145 * 7350 :=
            mul_le_mul_of_nonneg_left hB (by norm_num)
          nlinarith
        have hrc0 : 0 ≤ round2 (978.62 - 0.133145 * rt) := round2_nonneg hc
        have hrcD : ∃ k : ℤ, round2 (978.62 - 0.133145 * rt) = (k : ℚ) / 100 :=
          round2_twoDec _
        have h0m : (0 : ℚ) ≤ min (round2 (978.62 - 0.133145 * rt)) v :=
          le_min hrc0 hv
        rw [max_eq_right h0m, round2_idem (twoDec_min hrcD h2),
          min_eq_left (min_le_right (round2 (978.62 - 0.133145 * rt)) v),
          max_eq_right h0m]
      · have hcond : ¬ (5000 < rt ∧ rt ≤ 7350) := fun hco => hB hco.2
        simp only [if_neg hA, if_neg hcond, if_neg hB, r0, min_eq_left hv,
          max_self]

/-- Claim C2: for every net taxable base, `escolherFaixa` scans the 5-row
ordered table and returns the first bracket whose inclusive upper limit is at
least the base, defaulting to the unbounded last bracket when no finite limit
matches; a base exactly equal to a bracket limit (2428.80) selects that
bracket, not the next one. -/
theorem C2_escolherFaixa_first_match :
    (∀ base : ℚ, escolherFaixa base =
      if base ≤ 2428.80 then ⟨some 2428.80, 0.0, 0.0⟩
      else if base ≤ 2826.65 then ⟨some 2826.65, 7.5, 182.16⟩
      else if base ≤ 3751.05 then ⟨some 3751.05, 15.0, 394.16⟩
      else if base ≤ 4664.68 then ⟨some 4664.68, 22.5, 675.49⟩
      else ⟨none, 27.5, 908.73⟩) ∧
    escolherFaixa 2428.80 = ⟨some 2428.80, 0.0, 0.0⟩ ∧
    escolherFaixa 2428.80 ≠ ⟨some 2826.65, 7.5, 182.16⟩ := by
  refine ⟨escolherFaixa_eq, ?_, ?_⟩
  · rw [escolherFaixa_eq]
    norm_num
  · rw [escolherFaixa_eq]
    norm_num [Faixa.mk.injEq]

/-- Claim C1 counterexample: on the input of Scenario A
(income 5000, contribution 750, 2 dependents, no alimony) the net base
3870.82 falls in the fourth bracket, so the code produces rate 22.5 with
table deduction 675.49 and tax before reduction 195.44 — not the rate 7.5,
deduction 182.16 and tax 107.11 the claim states. -/
theorem C1_scenarioA_counterexample :
    (escolherFaixa (base_liquida_irrf 5000 750 2 0)).aliquota = 22.5 ∧
    (escolherFaixa (base_liquida_irrf 5000 750 2 0)).aliquota ≠ 7.5 ∧
    (escolherFaixa (base_liquida_irrf 5000 750 2 0)).deducao ≠ 182.16 ∧
    valor_irrf 5000 750 2 0 ≠ 107.11 := by
  have hbase : base_liquida_irrf 5000 750 2 0 = 3870.82 := by
    norm_num [base_liquida_irrf, deducao_total_aplicada, soma_deducoes,
      deducao_dependentes, round2, EPS, DEDUCAO_POR_DEPENDENTE,
      DESCONTO_SIMPLIFICADO_MINIMO]
  have hfx' : escolherFaixa (3870.82 : ℚ) = ⟨some 4664.68, 22.5, 675.49⟩ := by
    rw [escolherFaixa_eq]
    norm_num
  have hfx : escolherFaixa (base_liquida_irrf 5000 750 2 0) =
      ⟨some 4664.68, 22.5, 675.49⟩ := by
    rw [hbase, hfx']
  have hv : valor_irrf 5000 750 2 0 = 195.44 := by
    simp only [valor_irrf, hbase, hfx']
    norm_num [round2, EPS]
  refine ⟨by rw [hfx], by rw [hfx]; norm_num, by rw [hfx]; norm_num, ?_⟩
  rw [hv]
  norm_num

/-- Claim C1 (amended): for income 5000, contribution 750, 2 dependents and
no alimony the code yields dependents deduction 379.18, itemized sum 1129.18
(itemized path), net base 3870.82, bracket rate 22.5 with table deduction
675.49, tax before reduction 195.44, transitional reduction
min(195.44, 312.89) = 195.44 (income at most 5000), and final tax 0.00 in
both handler variants. -/
theorem C1_scenarioA_amended :
    deducao_dependentes 2 = 379.18 ∧
    soma_deducoes 750 2 0 = 1129.18 ∧
    simplificado_minimo_usado 750 2 0 = false ∧
    base_liquida_irrf 5000 750 2 0 = 3870.82 ∧
    escolherFaixa (base_liquida_irrf 5000 750 2 0) = ⟨some 4664.68, 22.5, 675.49⟩ ∧
    valor_irrf 5000 750 2 0 = 195.44 ∧
    reducao_pl_1087_25 5000 (valor_irrf 5000 750 2 0) = min 195.44 312.89 ∧
    reducao_pl_1087_25 5000 (valor_irrf 5000 750 2 0) = 195.44 ∧
    valor_irrf_apos_v1 5000 750 2 0 = 0 ∧
    valor_irrf_apos_v2 5000 750 2 0 = 0 := by
  have hdd : deducao_dependentes 2 = 379.18 := by
    norm_num [deducao_dependentes, round2, EPS, DEDUCAO_POR_DEPENDENTE]
  have hsd : soma_deducoes 750 2 0 = 1129.18 := by
    norm_num [soma_deducoes, hdd, round2, EPS]
  have husado : simplificado_minimo_usado 750 2 0 = false := by
    norm_num [simplificado_minimo_usado, hsd, DESCONTO_SIMPLIFICADO_MINIMO]
  have hbase : base_liquida_irrf 5000 750 2 0 = 3870.82 := by
    norm_num [base_liquida_irrf, deducao_total_aplicada, hsd, round2, EPS,
      DESCONTO_SIMPLIFICADO_MINIMO]
  have hfx' : escolherFaixa (3870.82 : ℚ) = ⟨some 4664.68, 22.5, 675.49⟩ := by
    rw [escolherFaixa_eq]
    norm_num
  have hfx : escolherFaixa (base_liquida_irrf 5000 750 2 0) =
      ⟨some 4664.68, 22.5, 675.49⟩ := by
    rw [hbase, hfx']
  have hv : valor_irrf 5000 750 2 0 = 195.44 := by
    simp only [valor_irrf, hbase, hfx']
    norm_num [round2, EPS]
  have hred : reducao_pl_1087_25 5000 (valor_irrf 5000 750 2 0) = 195.44 := by
    rw [hv]
    simp only [reducao_pl_1087_25]
    norm_num [round2, EPS]
  have hredmin : reducao_pl_1087_25 5000 (valor_irrf 5000 750 2 0) =
      min 195.44 312.89 := by
    rw [hred]
    norm_num
  have hapos1 : valor_irrf_apos_v1 5000 750 2 0 = 0 := by
    simp only [valor_irrf_apos_v1]
    rw [hred, hv]
    norm_num [round2, EPS]
  have hred2 : reducao_pl_aplicada 5000 (valor_irrf 5000 750 2 0) = 195.44 := by
    rw [← reducao_equiv 5000 (valor_irrf 5000 750 2 0)
      (valor_irrf_nonneg 5000 750 2 0) (round2_twoDec _), hred]
  have hapos2 : valor_irrf_apos_v2 5000 750 2 0 = 0 := by
    simp only [valor_irrf_apos_v2]
    rw [hred2, hv]
    norm_num [round2, EPS]
  exact ⟨hdd, hsd, husado, hbase, hfx, hv, hredmin, hred, hapos1, hapos2⟩

/-- Claim C3: for every valid input with taxable income above 7350, both
handler variants put the "does not apply" message in the response and omit
the post-reduction tax field, variant 1 also omits the reduction amount
(variant 2 reports it outside the conditional block, as 0), and the tax
before the reduction is still the one computed from the bracket table. -/
theorem C3_acima_do_limite (rt po qd pa : ℚ) (h : rt > 7350) :
    (montarResposta1 rt po qd pa).mensagem = some MSG_PL ∧
    (montarResposta1 rt po qd pa).valor_irrf_apos_pl_1087_25 = none ∧
    (montarResposta1 rt po qd pa).reducao_pl_1087_25 = none ∧
    (montarResposta1 rt po qd pa).valor_irrf = valor_irrf rt po qd pa ∧
    (montarResposta2 rt po qd pa).mensagem = some MSG_PL ∧
    (montarResposta2 rt po qd pa).valor_irrf_apos_pl_1087_25 = none ∧
    (montarResposta2 rt po qd pa).valor_irrf = valor_irrf rt po qd pa ∧
    (montarResposta2 rt po qd pa).reducao_pl_1087_25 = 0 := by
  have hB : ¬ rt ≤ 7350 := not_le.mpr h
  have hA : ¬ rt ≤ 5000 := by
    intro hle
    exact hB (by linarith)
  have hv := valor_irrf_nonneg rt po qd pa
  have hred0 : reducao_pl_formula rt (valor_irrf rt po qd pa) = 0 := by
    simp only [reducao_pl_formula, if_neg hA, if_neg hB, ite_self]
    rw [min_eq_left hv, max_self]
    exact round2_idem ⟨0, by norm_num⟩
  refine ⟨?_, ?_, ?_, ?_, ?_, ?_, ?_, ?_⟩ <;>
    simp only [montarResposta1, montarResposta2, if_pos h, hred0]

/-- Claim C4: whenever the itemized sum of legal deductions is below 607.20
the simplified path is taken — the applied deduction is exactly 607.20, the
response carries the single simplified-deduction field and omits the four
itemized figures; otherwise the itemized figures are present and the
simplified field is absent. -/
theorem C4_caminho_simplificado (rt po qd pa : ℚ) :
    (soma_deducoes po qd pa < DESCONTO_SIMPLIFICADO_MINIMO →
      simplificado_minimo_usado po qd pa = true ∧
      deducao_total_aplicada po qd pa = 607.20 ∧
      (montarResposta1 rt po qd pa).desconto_simplificado_aplicado = some 607.20 ∧
      (montarResposta1 rt po qd pa).previdencia_oficial = none ∧
      (montarResposta1 rt po qd pa).quantidade_dependentes = none ∧
      (montarResposta1 rt po qd pa).pensao_alimenticia = none ∧
      (montarResposta1 rt po qd pa).valor_deducoes_dependentes = none) ∧
    (DESCONTO_SIMPLIFICADO_MINIMO ≤ soma_deducoes po qd pa →
      simplificado_minimo_usado po qd pa = false ∧
      (montarResposta1 rt po qd pa).desconto_simplificado_aplicado = none ∧
      (montarResposta1 rt po qd pa).previdencia_oficial = some po ∧
      (montarResposta1 rt po qd pa).quantidade_dependentes = some qd ∧
      (montarResposta1 rt po qd pa).pensao_alimenticia = some (round2 pa) ∧
      (montarResposta1 rt po qd pa).valor_deducoes_dependentes =
        some (round2 (deducao_dependentes qd))) := by
  constructor
  · intro h
    have husado : simplificado_minimo_usado po qd pa = true := by
      simp only [simplificado_minimo_usado, decide_eq_true_eq]
      exact h
    have hded : deducao_total_aplicada po qd pa = 607.20 := by
      unfold deducao_total_aplicada
      rw [max_eq_right (le_of_lt h),
        round2_idem ⟨60720, by norm_num [DESCONTO_SIMPLIFICADO_MINIMO]⟩]
      norm_num [DESCONTO_SIMPLIFICADO_MINIMO]
    refine ⟨husado, hded, ?_, ?_, ?_, ?_, ?_⟩ <;>
      simp [montarResposta1, husado, DESCONTO_SIMPLIFICADO_MINIMO]
  · intro h
    have husado : simplificado_minimo_usado po qd pa = false := by
      simp only [simplificado_minimo_usado, decide_eq_false_iff_not]
      exact not_lt.mpr h
    refine ⟨husado, ?_, ?_, ?_, ?_, ?_⟩ <;> simp [montarResposta1, husado]

/-- Claim C5: for every input the final transitional reduction of either
variant lies between 0 and the tax before the reduction, and it is 0
whenever that tax is 0, in any income branch. -/
theorem C5_reducao_limitada (rt po qd pa : ℚ) :
    0 ≤ reducao_pl_1087_25 rt (valor_irrf rt po qd pa) ∧
    reducao_pl_1087_25 rt (valor_irrf rt po qd pa) ≤ valor_irrf rt po qd pa ∧
    0 ≤ reducao_pl_aplicada rt (valor_irrf rt po qd pa) ∧
    reducao_pl_aplicada rt (valor_irrf rt po qd pa) ≤ valor_irrf rt po qd pa ∧
    (valor_irrf rt po qd pa = 0 →
      reducao_pl_1087_25 rt (valor_irrf rt po qd pa) = 0 ∧
      reducao_pl_aplicada rt (valor_irrf rt po qd pa) = 0) := by
  obtain ⟨a1, b1⟩ := reducao_v1_bounds rt _ (valor_irrf_nonneg rt po qd pa)
  obtain ⟨a2, b2⟩ := reducao_v2_bounds rt _ (valor_irrf_nonneg rt po qd pa)
  exact ⟨a1, b1, a2, b2, fun h0 =>
    ⟨le_antisymm (le_trans b1 (le_of_eq h0)) a1,
     le_antisymm (le_trans b2 (le_of_eq h0)) a2⟩⟩

/-- Claim C6: for every input the tax before the reduction and the final
taxes of both variants are nonnegative. -/
theorem C6_nao_negatividade (rt po qd pa : ℚ) :
    0 ≤ valor_irrf rt po qd pa ∧
    0 ≤ valor_irrf_apos_v1 rt po qd pa ∧
    0 ≤ valor_irrf_apos_v2 rt po qd pa := by
  have hv := valor_irrf_nonneg rt po qd pa
  obtain ⟨a1, b1⟩ := reducao_v1_bounds rt _ hv
  obtain ⟨a2, b2⟩ := reducao_v2_bounds rt _ hv
  refine ⟨hv, ?_, ?_⟩
  · simp only [valor_irrf_apos_v1]
    exact round2_nonneg (by linarith)
  · simp only [valor_irrf_apos_v2]
    exact round2_nonneg (by linarith)

/-- Claim C10: on every input the two handler variants agree on the tax
before the reduction, on the applied transitional reduction (variant 1's
constant-then-clamp equals variant 2's min-then-clamp with explicit zero
forcing), and on the post-reduction tax. -/
theorem C10_variantes_equivalentes (rt po qd pa : ℚ) :
    (montarResposta1 rt po qd pa).valor_irrf = (montarResposta2 rt po qd pa).valor_irrf ∧
    reducao_pl_1087_25 rt (valor_irrf rt po qd pa) =
      reducao_pl_aplicada rt (valor_irrf rt po qd pa) ∧
    valor_irrf_apos_v1 rt po qd pa = valor_irrf_apos_v2 rt po qd pa := by
  have he := reducao_equiv rt (valor_irrf rt po qd pa)
    (valor_irrf_nonneg rt po qd pa) (round2_twoDec _)
  refine ⟨rfl, he, ?_⟩
  simp only [valor_irrf_apos_v1, valor_irrf_apos_v2, he]

/-- Claim C7: the handler rejects any request in which one of the four
fields is not a finite number, or a monetary field is negative, or the
dependent count is not a nonnegative integer, each with its own descriptive
message and without computing a result; it accepts every other request and
returns the computed response. -/
theorem C7_validacao (rt po qd pa : JsVal) :
    (¬ (isFiniteNumber rt = true ∧ isFiniteNumber po = true ∧
        isFiniteNumber qd = true ∧ isFiniteNumber pa = true) →
      calcularIrrf ⟨rt, po, qd, pa⟩ = .error MSG_CAMPOS_INVALIDOS) ∧
    (∀ r p q a : ℚ, rt = .num r → po = .num p → qd = .num q → pa = .num a →
      ((r < 0 ∨ p < 0 ∨ a < 0) →
        calcularIrrf ⟨rt, po, qd, pa⟩ = .error MSG_NEGATIVOS) ∧
      (¬ (r < 0 ∨ p < 0 ∨ a < 0) → (¬ q.den = 1 ∨ q < 0) →
        calcularIrrf ⟨rt, po, qd, pa⟩ = .error MSG_DEPENDENTES) ∧
      (¬ (r < 0 ∨ p < 0 ∨ a < 0) → q.den = 1 → ¬ q < 0 →
        calcularIrrf ⟨rt, po, qd, pa⟩ = .ok (montarResposta1 r p q a))) := by
  constructor
  · intro hbad
    cases rt <;> cases po <;> cases qd <;> cases pa <;>
      simp [calcularIrrf, isFiniteNumber] at hbad ⊢
  · intro r p q a hr hp hq ha
    subst hr
    subst hp
    subst hq
    subst ha
    refine ⟨?_, ?_, ?_⟩
    · intro hneg
      simp only [calcularIrrf]
      rw [if_pos hneg]
    · intro hok hbadq
      have hcond : ¬ jsIsInteger q = true ∨ q < 0 := by
        rcases hbadq with hd | hlt
        · exact Or.inl (by simp [jsIsInteger, hd])
        · exact Or.inr hlt
      simp only [calcularIrrf]
      rw [if_neg hok, if_pos hcond]
    · intro hok hden hnlt
      have hcond : ¬ (¬ jsIsInteger q = true ∨ q < 0) := by
        simp [jsIsInteger, hden, hnlt]
      simp only [calcularIrrf]
      rw [if_neg hok, if_neg hcond]

/-- Claim C8: the handler is a pure function of the input record — two
invocations on equal inputs return identical results. -/
theorem C8_determinismo (e e' : Entrada) (h : e = e') :
    calcularIrrf e = calcularIrrf e' :=
  congrArg calcularIrrf h

/-- Discriminates the structured (rate, table-deduction) trace result of the
bracket-selection step from the plain numeric results. -/
def resultadoEstruturado : ResultadoEtapa → Bool
  | .num _ => false
  | .faixaSel _ _ => true

/-- Claim C9: for every input the calculation trace has exactly nine steps,
ordered 1 through 9, each with nonempty title, description and formula and a
nonempty set of consulted values, and precisely step 5 carries the
structured rate/table-deduction pair as its result. -/
theorem C9_memoria_calculo (rt po qd pa : ℚ) :
    (memoria_calculo rt po qd pa).etapas.map Etapa.ordem =
      [1, 2, 3, 4, 5, 6, 7, 8, 9] ∧
    (memoria_calculo rt po qd pa).etapas.map
        (fun e => e.titulo.isEmpty || e.descricao.isEmpty ||
          e.formula.isEmpty || e.valores.isEmpty) = List.replicate 9 false ∧
    (memoria_calculo rt po qd pa).etapas.map
        (fun e => resultadoEstruturado e.resultado) =
      [false, false, false, false, true, false, false, false, false] := by
  refine ⟨rfl, ?_, rfl⟩
  simp only [memoria_calculo, List.map]
  by_cases h5 : rt ≤ 5000
  · rw [if_pos h5]
    rfl
  · by_cases h7 : rt ≤ 7350
    · rw [if_neg h5, if_pos h7]
      rfl
    · rw [if_neg h5, if_neg h7]
      rfl

/-- Witness for C3: the theorem applies at income 8000 (above the 7350
threshold) with zero contribution, dependents and alimony. -/
theorem C3_acima_do_limite_witness :
    (8000 : ℚ) > 7350 ∧
    ((montarResposta1 8000 0 0 0).mensagem = some MSG_PL ∧
     (montarResposta1 8000 0 0 0).valor_irrf_apos_pl_1087_25 = none ∧
     (montarResposta1 8000 0 0 0).reducao_pl_1087_25 = none ∧
     (montarResposta1 8000 0 0 0).valor_irrf = valor_irrf 8000 0 0 0 ∧
     (montarResposta2 8000 0 0 0).mensagem = some MSG_PL ∧
     (montarResposta2 8000 0 0 0).valor_irrf_apos_pl_1087_25 = none ∧
     (montarResposta2 8000 0 0 0).valor_irrf = valor_irrf 8000 0 0 0 ∧
     (montarResposta2 8000 0 0 0).reducao_pl_1087_25 = 0) :=
  ⟨by norm_num, C3_acima_do_limite 8000 0 0 0 (by norm_num)⟩

/-- Witness for C4: at income 2000 with no deductions the itemized sum is 0,
below the simplified minimum, so the simplified path applies. -/
theorem C4_caminho_simplificado_witness :
    soma_deducoes 0 0 0 < DESCONTO_SIMPLIFICADO_MINIMO ∧
    (simplificado_minimo_usado 0 0 0 = true ∧
     deducao_total_aplicada 0 0 0 = 607.20 ∧
     (montarResposta1 2000 0 0 0).desconto_simplificado_aplicado = some 607.20 ∧
     (montarResposta1 2000 0 0 0).previdencia_oficial = none ∧
     (montarResposta1 2000 0 0 0).quantidade_dependentes = none ∧
     (montarResposta1 2000 0 0 0).pensao_alimenticia = none ∧
     (montarResposta1 2000 0 0 0).valor_deducoes_dependentes = none) := by
  have h : soma_deducoes 0 0 0 < DESCONTO_SIMPLIFICADO_MINIMO := by
    norm_num [soma_deducoes, deducao_dependentes, round2, EPS,
      DEDUCAO_POR_DEPENDENTE, DESCONTO_SIMPLIFICADO_MINIMO]
  exact ⟨h, (C4_caminho_simplificado 2000 0 0 0).1 h⟩

/-- Witness for C5: at income 2000 with no deductions the tax before the
reduction is 0 and both reductions collapse to 0. -/
theorem C5_reducao_limitada_witness :
    valor_irrf 2000 0 0 0 = 0 ∧
    (reducao_pl_1087_25 2000 (valor_irrf 2000 0 0 0) = 0 ∧
     reducao_pl_aplicada 2000 (valor_irrf 2000 0 0 0) = 0) := by
  have hbase : base_liquida_irrf 2000 0 0 0 = 1392.80 := by
    norm_num [base_liquida_irrf, deducao_total_aplicada, soma_deducoes,
      deducao_dependentes, round2, EPS, DEDUCAO_POR_DEPENDENTE,
      DESCONTO_SIMPLIFICADO_MINIMO]
  have hfx : escolherFaixa (1392.80 : ℚ) = ⟨some 2428.80, 0.0, 0.0⟩ := by
    rw [escolherFaixa_eq]
    norm_num
  have h0 : valor_irrf 2000 0 0 0 = 0 := by
    simp only [valor_irrf, hbase, hfx]
    norm_num [round2, EPS]
  exact ⟨h0, (C5_reducao_limitada 2000 0 0 0).2.2.2.2 h0⟩

/-- Witness for C7: a fractional dependent count (5/2, i.e. 2.5) is rejected
with the dependent-count message, and a negative income (−1) is rejected
with the negative-fields message. -/
theorem C7_validacao_witness :
    ¬ ((5000 : ℚ) < 0 ∨ (0 : ℚ) < 0 ∨ (0 : ℚ) < 0) ∧
    (¬ ((5 / 2 : ℚ).den = 1) ∨ (5 / 2 : ℚ) < 0) ∧
    calcularIrrf ⟨.num 5000, .num 0, .num (5 / 2), .num 0⟩ =
      .error MSG_DEPENDENTES ∧
    ((-1 : ℚ) < 0 ∨ (0 : ℚ) < 0 ∨ (0 : ℚ) < 0) ∧
    calcularIrrf ⟨.num (-1), .num 0, .num 0, .num 0⟩ = .error MSG_NEGATIVOS := by
  have hden : ¬ ((5 / 2 : ℚ).den = 1) := by
    intro hd
    have h' : (((5 / 2 : ℚ).num : ℚ)) = 5 / 2 := Rat.coe_int_num_of_den_eq_one hd
    have h2 : (((5 / 2 : ℚ).num : ℚ)) * 2 = 5 := by
      rw [h']
      norm_num
    have h3 : ((5 / 2 : ℚ).num * 2 : ℤ) = 5 := by exact_mod_cast h2
    omega
  have h1 : ¬ ((5000 : ℚ) < 0 ∨ (0 : ℚ) < 0 ∨ (0 : ℚ) < 0) := by norm_num
  have h2 : ¬ ((5 / 2 : ℚ).den = 1) ∨ (5 / 2 : ℚ) < 0 := Or.inl hden
  have h3 : (-1 : ℚ) < 0 ∨ (0 : ℚ) < 0 ∨ (0 : ℚ) < 0 := by norm_num
  refine ⟨h1, h2, ?_, h3, ?_⟩
  · exact ((C7_validacao (.num 5000) (.num 0) (.num (5 / 2)) (.num 0)).2
      5000 0 (5 / 2) 0 rfl rfl rfl rfl).2.1 h1 h2
  · exact ((C7_validacao (.num (-1)) (.num 0) (.num 0) (.num 0)).2
      (-1) 0 0 0 rfl rfl rfl rfl).1 h3

/-- Witness for C8: the determinism theorem applied at a concrete request. -/
theorem C8_determinismo_witness :
    (⟨.num 5000, .num 750, .num 2, .num 0⟩ : Entrada) =
      ⟨.num 5000, .num 750, .num 2, .num 0⟩ ∧
    calcularIrrf ⟨.num 5000, .num 750, .num 2, .num 0⟩ =
      calcularIrrf ⟨.num 5000, .num 750, .num 2, .num 0⟩ :=
  ⟨rfl, C8_determinismo _ _ rfl⟩

end IRRF
